import Mathlib

/-!
Shallow embedding of the API-Throttling server (`src/server/main.go`):
configuration loading, the throttle-delay computation, the token-bucket
admission primitive, the middleware pipeline, the health reporter and the
route table, together with theorems settling the specification claims.

Conventions of the embedding:
* Go `int` is modelled as `Int` (64-bit overflow is irrelevant at the
  ranges the claims quantify over).
* Go `float64` values appear only as the derived `ratePerSecond`; they are
  modelled by `GoFloat` (an exact rational plus the IEEE special values
  produced by division by zero), which is exact for the integer-by-integer
  divisions the program performs at the magnitudes involved.
* A Go runtime panic (integer division by zero) is modelled as `none`.
* Wall-clock instants are rationals (seconds); `time.Now().UnixNano()` as
  observed by the throttle middleware is an `Int` parameter of the request
  context.
-/

namespace ApiThrottling

/-- `Config` from `src/server/main.go` (lines 24-35). -/
structure Config where
  Port : String
  DBHost : String
  DBPort : String
  DBUser : String
  DBPassword : String
  DBName : String
  RateLimitRequests : Int
  RateLimitPeriod : Int
  ThrottleMinMs : Int
  ThrottleMaxMs : Int
deriving DecidableEq, Repr

/-- Digit-string value: `some n` when the list is a non-empty run of ASCII
digits, `none` otherwise. Helper for `parseIntOpt`. -/
def digitsVal (l : List Char) : Option Nat :=
  if l = [] then none
  else l.foldl (fun acc c => acc.bind fun n =>
    if c.isDigit then some (n * 10 + (c.toNat - 48)) else none) (some 0)

/-- Successful parses of Go `strconv.Atoi`: an optional sign followed by a
non-empty digit run. `none` models Atoi returning a syntax error.
(Go additionally clamps out-of-range digit runs, returning a range error;
no claim involves inputs near 2^63, so overflow is not modelled.) -/
def parseIntOpt (s : String) : Option Int :=
  match s.data with
  | [] => none
  | '+' :: rest => (digitsVal rest).map Int.ofNat
  | '-' :: rest => (digitsVal rest).map fun n => -(n : Int)
  | l => (digitsVal l).map Int.ofNat

/-- The value component of Go `strconv.Atoi(s)` as used by `loadConfig`,
which discards the error: on a syntax error Atoi returns value 0. -/
def atoiVal (s : String) : Int := (parseIntOpt s).getD 0

/-- `getEnv` from `src/server/main.go` (lines 63-68). The process
environment is modelled as a total map where `""` means unset. -/
def getEnv (env : String → String) (key defaultValue : String) : String :=
  if env key ≠ "" then env key else defaultValue

/-- `loadConfig` from `src/server/main.go` (lines 43-61). The `_`-discarded
`strconv.Atoi` errors mean a non-numeric value yields field 0. -/
def loadConfig (env : String → String) : Config :=
  { Port := getEnv env "PORT" "8888"
    DBHost := getEnv env "DB_HOST" "postgres"
    DBPort := getEnv env "DB_PORT" "5432"
    DBUser := getEnv env "DB_USER" "postgres"
    DBPassword := getEnv env "DB_PASSWORD" "postgres"
    DBName := getEnv env "DB_NAME" "apidb"
    RateLimitRequests := atoiVal (getEnv env "RATE_LIMIT_REQUESTS" "10")
    RateLimitPeriod := atoiVal (getEnv env "RATE_LIMIT_PERIOD" "1")
    ThrottleMinMs := atoiVal (getEnv env "THROTTLE_MIN_MS" "0")
    ThrottleMaxMs := atoiVal (getEnv env "THROTTLE_MAX_MS" "0") }

/-- A Go `float64` as produced by the program's only float expression,
`float64(a) / float64(b)`: an exact rational, or an IEEE special value. -/
inductive GoFloat where
  | num (q : ℚ)
  | inf
  | negInf
  | nan
deriving DecidableEq, Repr

/-- `float64(a) / float64(b)` for Go ints `a`, `b` (exact at the program's
magnitudes): division by zero yields `±Inf` (or `NaN` for `0/0`). -/
def fdivInt (a b : Int) : GoFloat :=
  if b = 0 then
    if a > 0 then .inf else if a < 0 then .negInf else .nan
  else .num ((a : ℚ) / (b : ℚ))

/-- The jitter branch of `throttleMiddleware` (`src/server/main.go` lines
130-136), reached when `ThrottleMaxMs > 0`: either the fixed value
`minMs` (when `minMs == maxMs`) or
`minMs + nano % (maxMs - minMs + 1)` with Go's truncated `%`
(`Int.tmod`). A zero divisor is a Go runtime panic, modelled as `none`. -/
def goJitterDelay (minMs maxMs nano : Int) : Option Int :=
  if minMs = maxMs then some minMs
  else if maxMs - minMs + 1 = 0 then none
  else some (minMs + Int.tmod nano (maxMs - minMs + 1))

/-- The throttle delay `throttleMiddleware` sleeps for
(`src/server/main.go` lines 129-138): 0 when `ThrottleMaxMs ≤ 0` (the
sleep is skipped entirely), otherwise the jitter value. -/
def goThrottleDelay (minMs maxMs nano : Int) : Option Int :=
  if maxMs > 0 then goJitterDelay minMs maxMs nano else some 0

/-! ### Token-bucket limiter -/

/-- The token bucket's mutable runtime state: current (fractional) token
count and the last-refill timestamp, in seconds. -/
structure LimiterState where
  tokens : ℚ
  last : ℚ
deriving DecidableEq, Repr

/-- Modelled from the spec: the internals of the token-bucket limiter live
in the external `golang.org/x/time/rate` package, not under `src/`; §4.1
fixes its contract: constructed with `initial tokens = capacity` (full
bucket at startup). -/
def mkLimiter (cap : ℚ) : LimiterState := ⟨cap, 0⟩

/-- Modelled from the spec: `TryAcquire` of the external
`golang.org/x/time/rate` limiter (`limiter.Allow()` in
`rateLimitMiddleware`), per §4.1: lazily refill
`min(capacity, tokens + elapsed * ratePerSecond)`, then admit and
decrement by one if at least one token is available, otherwise reject
without mutating state. -/
def tryAcquire (cap r now : ℚ) (st : LimiterState) : Bool × LimiterState :=
  let tokens := min cap (st.tokens + (now - st.last) * r)
  if 1 ≤ tokens then (true, ⟨tokens - 1, now⟩) else (false, st)

/-- `n` successive `tryAcquire` calls, all observing the same wall-clock
instant `now` (an immediate burst); returns the list of admit/reject
decisions and the final state. -/
def runAcquires (cap r now : ℚ) : Nat → LimiterState → List Bool × LimiterState
  | 0, st => ([], st)
  | n + 1, st =>
    let d := tryAcquire cap r now st
    let rest := runAcquires cap r now n d.2
    (d.1 :: rest.1, rest.2)

/-! ### Request pipeline -/

/-- A JSON value, only as rich as the program's literal response bodies. -/
inductive Json where
  | str : String → Json
  | obj : List (String × Json) → Json

/-- The dependency-health part of the health response
(`response["database"]` in `healthHandler`): the `error` key is present
only when it was added. -/
structure DbSection where
  status : String
  host : String
  port : String
  name : String
  error : Option String

/-- The health response built by `healthHandler`
(`src/server/main.go` lines 194-224), with the JSON field names flattened
into record fields: `configuration.rate_limiting.{requests, period_seconds,
rate_per_second}`, `configuration.throttling.{min_ms, max_ms, enabled}`,
`server.port`. -/
structure HealthSnapshot where
  status : String
  database : DbSection
  requests : Int
  period_seconds : Int
  rate_per_second : GoFloat
  min_ms : Int
  max_ms : Int
  enabled : Bool
  port : String

/-- A response body: either a literal JSON value or the health snapshot. -/
inductive Body where
  | jsonBody : Json → Body
  | healthBody : HealthSnapshot → Body

/-- The observable outcome written to the `http.ResponseWriter`: status
code (200 when `WriteHeader` is never called), `Content-Type` header and
encoded body. -/
structure Response where
  status : Nat
  contentType : Option String
  body : Option Body

/-- Events of one request's execution, in program order. -/
inductive Event where
  | sleep (ms : Int)
  | tryAcq (ok : Bool)
  | handlerRun
  | dbPing (ok : Bool)
deriving DecidableEq, Repr

/-- Per-request inputs: the `time.Now().UnixNano()` value the throttle
middleware observes, the wall-clock instant (seconds) the limiter
observes, and the outcome of `db.Ping` (`none` = success, `some e` =
failure with error string `e`). -/
structure ReqCtx where
  nano : Int
  now : ℚ
  ping : Option String

/-- An `http.HandlerFunc` in this embedding: from the global config and
the request context and limiter state to the trace of events, the
response, and the limiter state afterwards. `none` models a runtime
panic. -/
def Handler : Type :=
  Config → ReqCtx → LimiterState → Option (List Event × Response × LimiterState)

/-- Limiter capacity (burst) passed to `rate.NewLimiter` in `main`:
`config.RateLimitRequests`. -/
def limiterCap (cfg : Config) : ℚ := (cfg.RateLimitRequests : ℚ)

/-- Limiter refill rate passed to `rate.NewLimiter` in `main`:
`RateLimitRequests / RateLimitPeriod`. (In Go this is a `float64`
division, `+Inf` when the period is 0 — see `fdivInt` and `serverStart`;
here, where only the admitted/rejected decision matters, the rational
value is used, with period 0 handled by `serverStart`.) -/
def limiterRate (cfg : Config) : ℚ :=
  (cfg.RateLimitRequests : ℚ) / (cfg.RateLimitPeriod : ℚ)

/-- `throttleMiddleware` from `src/server/main.go` (lines 126-141):
when `ThrottleMaxMs > 0`, compute the delay (fixed or jittered) and sleep
for it before calling `next`; otherwise call `next` directly. A zero
jitter divisor is a runtime panic (`none`). -/
def throttleMiddleware (next : Handler) : Handler := fun cfg ctx st =>
  if cfg.ThrottleMaxMs > 0 then
    match goJitterDelay cfg.ThrottleMinMs cfg.ThrottleMaxMs ctx.nano with
    | none => none
    | some d => (next cfg ctx st).map fun out =>
        (Event.sleep d :: out.1, out.2.1, out.2.2)
  else next cfg ctx st

/-- The rejection body literal from `rateLimitMiddleware`
(`src/server/main.go` lines 148-150). -/
def rejectBody : Json :=
  .obj [("error", .str "Rate limit exceeded. Too many requests.")]

/-- `rateLimitMiddleware` from `src/server/main.go` (lines 143-155): call
`limiter.Allow()`; on rejection write `Content-Type: application/json`,
status 429 and the rejection body, without calling `next`; on admission
call `next`. -/
def rateLimitMiddleware (next : Handler) : Handler := fun cfg ctx st =>
  let d := tryAcquire (limiterCap cfg) (limiterRate cfg) ctx.now st
  if d.1 then
    (next cfg ctx d.2).map fun out => (Event.tryAcq true :: out.1, out.2)
  else
    some ([Event.tryAcq false],
      ⟨429, some "application/json", some (.jsonBody rejectBody)⟩, d.2)

/-- `loggingMiddleware` from `src/server/main.go` (lines 157-170): all
logging statements are commented out; it just calls `next`. -/
def loggingMiddleware (next : Handler) : Handler := fun cfg ctx st =>
  next cfg ctx st

/-- `combinedMiddleware` from `src/server/main.go` (lines 172-174). -/
def combinedMiddleware (next : Handler) : Handler :=
  loggingMiddleware (throttleMiddleware (rateLimitMiddleware next))

/-! ### Health reporter -/

/-- The pure content of `healthHandler` (`src/server/main.go` lines
176-234) as a function of the config and the `db.Ping` outcome: the HTTP
status code and the snapshot. Faithful to the code's order: `status` starts
`"ok"`, `database.error` is added and `status` becomes `"degraded"` only
when the error string is non-empty, and `WriteHeader(503)` fires exactly
when `dbStatus == "disconnected"`. -/
def healthReport (cfg : Config) (ping : Option String) : Nat × HealthSnapshot :=
  let dbStatus := match ping with
    | none => "connected"
    | some _ => "disconnected"
  let dbError := match ping with
    | none => ""
    | some e => e
  let base : HealthSnapshot :=
    { status := "ok"
      database := ⟨dbStatus, cfg.DBHost, cfg.DBPort, cfg.DBName, none⟩
      requests := cfg.RateLimitRequests
      period_seconds := cfg.RateLimitPeriod
      rate_per_second := fdivInt cfg.RateLimitRequests cfg.RateLimitPeriod
      min_ms := cfg.ThrottleMinMs
      max_ms := cfg.ThrottleMaxMs
      enabled := decide (cfg.ThrottleMaxMs > 0)
      port := cfg.Port }
  let snap :=
    if dbError ≠ "" then
      { base with
          status := "degraded"
          database := { base.database with error := some dbError } }
    else base
  let code := if dbStatus = "disconnected" then 503 else 200
  (code, snap)

/-- `healthHandler` as a `Handler`: probes the database, writes the
snapshot; it touches neither the throttle nor the limiter, so the limiter
state passes through unchanged. -/
def healthHandler : Handler := fun cfg ctx st =>
  let rep := healthReport cfg ctx.ping
  some ([Event.dbPing ctx.ping.isNone],
    ⟨rep.1, some "application/json", some (.healthBody rep.2)⟩, st)

/-! ### Route table and startup -/

/-- The route registrations in `main` (`src/server/main.go` lines
381-394): `/health` is registered directly on `healthHandler`; the three
`/api` routes are wrapped in `combinedMiddleware`. The downstream business
handlers (echo-GET, echo-POST, the method-dispatched message handlers) are
external collaborators here, passed in as parameters. -/
def routeTable (getH postH dbMessagesH : Handler) : List (String × Handler) :=
  [("/health", healthHandler),
   ("/api/get", combinedMiddleware getH),
   ("/api/post", combinedMiddleware postH),
   ("/api/db/messages", combinedMiddleware dbMessagesH)]

/-- Outcome of process startup. -/
inductive StartResult where
  | started (ratePerSecond : GoFloat) (burst : Int)
  | fatalDB
deriving DecidableEq, Repr

/-- Startup sequence of `main` (`src/server/main.go` lines 340-420): load
config, build the limiter from `float64(RateLimitRequests) /
float64(RateLimitPeriod)` and burst `RateLimitRequests`, then initialize
the database — the only startup step that can abort the process
(`log.Fatalf`). No configuration value is validated anywhere on this
path. -/
def serverStart (cfg : Config) (dbOk : Bool) : StartResult :=
  let ratePerSecond := fdivInt cfg.RateLimitRequests cfg.RateLimitPeriod
  if dbOk then .started ratePerSecond cfg.RateLimitRequests else .fatalDB

/-! ### Concrete sample inputs (used to instantiate the theorems) -/

/-- The empty process environment: every variable unset. -/
def emptyEnv : String → String := fun _ => ""

/-- The configuration under the default environment. -/
def defaultCfg : Config := loadConfig emptyEnv

/-- An environment with a non-numeric `RATE_LIMIT_REQUESTS`. -/
def badRequestsEnv : String → String :=
  fun k => if k = "RATE_LIMIT_REQUESTS" then "abc" else ""

/-- Default configuration except `RATE_LIMIT_PERIOD = 0`. -/
def periodZeroCfg : Config := { defaultCfg with RateLimitPeriod := 0 }

/-- Default configuration except a fixed 200 ms throttle. -/
def fixedThrottleCfg : Config :=
  { defaultCfg with ThrottleMinMs := 200, ThrottleMaxMs := 200 }

/-- Default configuration except zero rate-limit capacity. -/
def zeroCapacityCfg : Config := { defaultCfg with RateLimitRequests := 0 }

/-- A literal configuration: capacity 10 per 1 s, fixed 200 ms throttle. -/
def pipeCfg : Config :=
  ⟨"8888", "postgres", "5432", "postgres", "postgres", "apidb", 10, 1, 200, 200⟩

/-- A literal configuration with zero rate-limit capacity and no
throttle. -/
def rejectCfg : Config :=
  ⟨"8888", "postgres", "5432", "postgres", "postgres", "apidb", 0, 1, 0, 0⟩

/-- A sample downstream handler (external collaborator): writes a 200
response, leaves the limiter alone. -/
def okHandler : Handler := fun _ _ st =>
  some ([Event.handlerRun], ⟨200, some "application/json", none⟩, st)

/-- A sample request context: nanosecond clock 0, wall clock 0,
database reachable. -/
def ctx0 : ReqCtx := ⟨0, 0, none⟩

end ApiThrottling

namespace ApiThrottling

/-! ### Claim C4: throttle delay bounds -/

/-- Claim C4: the computed throttle delay is exactly 0 when `maxMs = 0`
(whatever `minMs` is), exactly the fixed value when `minMs = maxMs` (for
non-negative bounds), and under the precondition `0 ≤ minMs < maxMs` it is
defined and lies in the closed interval `[minMs, maxMs]` (for the
non-negative nanosecond clock values the program observes). -/
theorem throttle_delay_bounds (minMs maxMs nano : Int) (hnano : 0 ≤ nano) :
    (maxMs = 0 → goThrottleDelay minMs maxMs nano = some 0) ∧
    (0 ≤ maxMs → minMs = maxMs → goThrottleDelay minMs maxMs nano = some minMs) ∧
    (0 ≤ minMs → minMs < maxMs →
      (goThrottleDelay minMs maxMs nano).isSome = true ∧
      ∀ d, goThrottleDelay minMs maxMs nano = some d → minMs ≤ d ∧ d ≤ maxMs) := by
  refine ⟨?_, ?_, ?_⟩
  · intro h
    simp [goThrottleDelay, h]
  · intro h0 heq
    rcases lt_or_eq_of_le h0 with hpos | hzero
    · simp [goThrottleDelay, goJitterDelay, heq, hpos]
    · simp [goThrottleDelay, goJitterDelay, heq, ← hzero]
  · intro hmin hlt
    have hdiv : 0 < maxMs - minMs + 1 := by omega
    have hne : minMs ≠ maxMs := by omega
    have hd0 : maxMs - minMs + 1 ≠ 0 := by omega
    have hmod0 : 0 ≤ Int.tmod nano (maxMs - minMs + 1) := Int.tmod_nonneg _ hnano
    have hmod1 : Int.tmod nano (maxMs - minMs + 1) < maxMs - minMs + 1 :=
      Int.tmod_lt_of_pos nano hdiv
    have hmax0 : maxMs > 0 := by omega
    constructor
    · simp [goThrottleDelay, goJitterDelay, hmax0, hne, hd0]
    · intro d hd
      simp [goThrottleDelay, goJitterDelay, hmax0, hne, hd0] at hd
      omega

/-- Witness for C4 at `minMs = 100`, `maxMs = 500`, `nano = 12345`
(delay 415). -/
theorem throttle_delay_bounds_witness :
    (100 : Int) ≤ 415 ∧ (415 : Int) ≤ 500 :=
  ((throttle_delay_bounds 100 500 12345 (by decide)).2.2 (by decide)
    (by decide)).2 415 (by decide)

/-! ### Claim C9: partiality of the jitter computation -/

/-- Claim C9: the delay computation is total when `minMs ≤ maxMs`; in the
jitter branch (`maxMs > 0`, `minMs ≠ maxMs`) the jitter is
`nano % (maxMs - minMs + 1)` (Go truncated `%`); for
`minMs = maxMs + 1` the divisor is zero and the computation panics
(`none`); for `minMs > maxMs + 1` any produced delay exceeds `maxMs`. -/
theorem throttle_delay_partiality (minMs maxMs nano : Int) :
    (minMs ≤ maxMs → (goThrottleDelay minMs maxMs nano).isSome = true) ∧
    (maxMs > 0 → minMs ≠ maxMs → maxMs - minMs + 1 ≠ 0 →
      goThrottleDelay minMs maxMs nano
        = some (minMs + Int.tmod nano (maxMs - minMs + 1))) ∧
    (maxMs > 0 → minMs = maxMs + 1 → goThrottleDelay minMs maxMs nano = none) ∧
    (maxMs > 0 → maxMs + 1 < minMs → 0 ≤ nano →
      ∀ d, goThrottleDelay minMs maxMs nano = some d → maxMs < d) := by
  refine ⟨?_, ?_, ?_, ?_⟩
  · intro hle
    rcases le_or_lt maxMs 0 with h0 | hpos
    · simp [goThrottleDelay, not_lt.mpr h0]
    · rcases eq_or_lt_of_le hle with heq | hlt
      · simp [goThrottleDelay, goJitterDelay, heq, hpos]
      · have : maxMs - minMs + 1 ≠ 0 := by omega
        have : minMs ≠ maxMs := by omega
        simp [goThrottleDelay, goJitterDelay, hpos, *]
  · intro hpos hne hd0
    simp [goThrottleDelay, goJitterDelay, hpos, hne, hd0]
  · intro hpos heq
    have hne : minMs ≠ maxMs := by omega
    have hz : maxMs - minMs + 1 = 0 := by omega
    simp [goThrottleDelay, goJitterDelay, hpos, hne, hz]
  · intro hpos hgt hnano d hd
    have hne : minMs ≠ maxMs := by omega
    have hd0 : maxMs - minMs + 1 ≠ 0 := by omega
    have hmod0 : 0 ≤ Int.tmod nano (maxMs - minMs + 1) := Int.tmod_nonneg _ hnano
    simp [goThrottleDelay, goJitterDelay, hpos, hne, hd0] at hd
    omega

/-- Witness for C9: at `minMs = 6`, `maxMs = 5` the computation panics;
at `minMs = 10`, `maxMs = 5`, `nano = 7` the delay 13 exceeds `maxMs`. -/
theorem throttle_delay_partiality_witness :
    goThrottleDelay 6 5 0 = none ∧ (5 : Int) < 13 :=
  ⟨(throttle_delay_partiality 6 5 0).2.2.1 (by decide) (by decide),
   (throttle_delay_partiality 10 5 7).2.2.2 (by decide) (by decide) (by decide)
     13 (by decide)⟩

/-! ### Claim C10: numeric-parse errors are discarded -/

/-- Claim C10: whenever one of the four numeric environment variables is
set (non-empty) to a string `strconv.Atoi` cannot parse, `loadConfig`
silently stores 0 in the corresponding field instead of the documented
default; in particular a non-numeric `RATE_LIMIT_REQUESTS` yields a
limiter with zero burst and zero rate. -/
theorem loadConfig_discards_parse_errors (env : String → String) (s : String)
    (hs : s ≠ "") (hbad : parseIntOpt s = none) :
    (env "RATE_LIMIT_REQUESTS" = s →
      (loadConfig env).RateLimitRequests = 0 ∧
      limiterCap (loadConfig env) = 0 ∧
      ((loadConfig env).RateLimitPeriod ≠ 0 →
        fdivInt (loadConfig env).RateLimitRequests (loadConfig env).RateLimitPeriod
          = .num 0)) ∧
    (env "RATE_LIMIT_PERIOD" = s → (loadConfig env).RateLimitPeriod = 0) ∧
    (env "THROTTLE_MIN_MS" = s → (loadConfig env).ThrottleMinMs = 0) ∧
    (env "THROTTLE_MAX_MS" = s → (loadConfig env).ThrottleMaxMs = 0) := by
  have hv : ∀ key d, env key = s → getEnv env key d = s := by
    intro key d hk
    simp [getEnv, hk, hs]
  refine ⟨fun h => ?_, fun h => ?_, fun h => ?_, fun h => ?_⟩
  · have h0 : (loadConfig env).RateLimitRequests = 0 := by
      simp [loadConfig, atoiVal, hv _ _ h, hbad]
    refine ⟨h0, ?_, fun hp => ?_⟩
    · simp [limiterCap, h0]
    · simp [h0, fdivInt, hp]
  · simp [loadConfig, atoiVal, hv _ _ h, hbad]
  · simp [loadConfig, atoiVal, hv _ _ h, hbad]
  · simp [loadConfig, atoiVal, hv _ _ h, hbad]

/-- Witness for C10 at the environment that sets
`RATE_LIMIT_REQUESTS=abc`. -/
theorem loadConfig_discards_parse_errors_witness :
    (loadConfig badRequestsEnv).RateLimitRequests = 0 ∧
    limiterCap (loadConfig badRequestsEnv) = 0 ∧
    ((loadConfig badRequestsEnv).RateLimitPeriod ≠ 0 →
      fdivInt (loadConfig badRequestsEnv).RateLimitRequests
        (loadConfig badRequestsEnv).RateLimitPeriod = .num 0) :=
  (loadConfig_discards_parse_errors badRequestsEnv "abc" (by decide)
    (by decide)).1 (by simp [badRequestsEnv])

/-! ### Claim C5: configuration is not validated at startup -/

/-- Counterexample to C5 as stated: with `RATE_LIMIT_PERIOD = 0` (so
`period ≤ 0`) and the default `RATE_LIMIT_REQUESTS = 10`, the process does
not refuse to start — startup proceeds (given a reachable database) and
silently hands the limiter the infinite rate `float64(10)/float64(0) =
+Inf`. -/
theorem serverStart_accepts_zero_period :
    periodZeroCfg.RateLimitPeriod ≤ 0 ∧
    serverStart periodZeroCfg true = .started GoFloat.inf 10 := by
  constructor
  · decide
  · simp [serverStart, periodZeroCfg, defaultCfg, loadConfig, getEnv,
      emptyEnv, atoiVal, parseIntOpt, digitsVal, fdivInt]

/-- Claim C5 as amended: startup never validates the configuration — its
outcome depends only on database availability; any configuration (period
≤ 0 or `minMs > maxMs` included) starts the server when the database is
reachable, and a zero period with positive capacity silently produces the
infinite rate `+Inf` rather than a startup rejection. -/
theorem serverStart_never_validates (cfg : Config) (dbOk : Bool) :
    (serverStart cfg dbOk = .fatalDB ↔ dbOk = false) ∧
    (dbOk = true →
      serverStart cfg dbOk
        = .started (fdivInt cfg.RateLimitRequests cfg.RateLimitPeriod)
            cfg.RateLimitRequests) ∧
    (cfg.RateLimitPeriod = 0 → 0 < cfg.RateLimitRequests → dbOk = true →
      serverStart cfg dbOk = .started GoFloat.inf cfg.RateLimitRequests) := by
  refine ⟨?_, ?_, ?_⟩
  · cases dbOk <;> simp [serverStart]
  · intro h; simp [serverStart, h]
  · intro hp hr h
    simp [serverStart, h, fdivInt, hp, hr]

/-- Witness for the amended C5 at the zero-period configuration. -/
theorem serverStart_never_validates_witness :
    serverStart periodZeroCfg true = .started GoFloat.inf periodZeroCfg.RateLimitRequests :=
  (serverStart_never_validates periodZeroCfg true).2.2 (by decide) (by decide) rfl

/-! ### Claim C6: health status reflects the dependency probe -/

/-- Claim C6: when the database probe succeeds the snapshot's status is
`"ok"` and the HTTP status is 200; when it fails (the probe's boundary
contract, §6, makes the error string human-readable, hence non-empty) the
status is `"degraded"`, the error string appears verbatim in the
snapshot's database section, and the HTTP status is 503. -/
theorem health_status_reflects_probe (cfg : Config) :
    (healthReport cfg none).1 = 200 ∧
    (healthReport cfg none).2.status = "ok" ∧
    (healthReport cfg none).2.database.error = none ∧
    (∀ e : String, e ≠ "" →
      (healthReport cfg (some e)).1 = 503 ∧
      (healthReport cfg (some e)).2.status = "degraded" ∧
      (healthReport cfg (some e)).2.database.error = some e) := by
  refine ⟨by simp [healthReport], by simp [healthReport], by simp [healthReport],
    fun e he => ⟨?_, ?_, ?_⟩⟩ <;> simp [healthReport, he]

/-- Witness for C6 at the default configuration and the probe error
`"connection refused"`. -/
theorem health_status_reflects_probe_witness :
    (healthReport defaultCfg (some "connection refused")).1 = 503 ∧
    (healthReport defaultCfg (some "connection refused")).2.status = "degraded" ∧
    (healthReport defaultCfg (some "connection refused")).2.database.error
      = some "connection refused" :=
  (health_status_reflects_probe defaultCfg).2.2.2 "connection refused" (by decide)

/-! ### Claim C7: health snapshot field contents -/

/-- Claim C7: every health snapshot carries the literal configured
capacity and period, the rate recomputed from them at report time, the
throttle bounds, `enabled = (maxMs > 0)`, and a database error field
present exactly when the database is disconnected (probe errors being
non-empty by the §6 boundary contract). -/
theorem health_snapshot_fields (cfg : Config) (ping : Option String)
    (hping : ∀ e, ping = some e → e ≠ "") :
    (healthReport cfg ping).2.requests = cfg.RateLimitRequests ∧
    (healthReport cfg ping).2.period_seconds = cfg.RateLimitPeriod ∧
    (healthReport cfg ping).2.rate_per_second
      = fdivInt cfg.RateLimitRequests cfg.RateLimitPeriod ∧
    (healthReport cfg ping).2.min_ms = cfg.ThrottleMinMs ∧
    (healthReport cfg ping).2.max_ms = cfg.ThrottleMaxMs ∧
    ((healthReport cfg ping).2.enabled = true ↔ 0 < cfg.ThrottleMaxMs) ∧
    ((healthReport cfg ping).2.database.error ≠ none ↔
      (healthReport cfg ping).2.database.status = "disconnected") := by
  cases ping with
  | none =>
    refine ⟨?_, ?_, ?_, ?_, ?_, ?_, ?_⟩ <;> simp [healthReport]
  | some e =>
    have he : e ≠ "" := hping e rfl
    refine ⟨?_, ?_, ?_, ?_, ?_, ?_, ?_⟩ <;> simp [healthReport, he]

/-- Witness for C7 at the fixed-throttle configuration with a reachable
database. -/
theorem health_snapshot_fields_witness :
    (healthReport fixedThrottleCfg none).2.requests
      = fixedThrottleCfg.RateLimitRequests ∧
    (healthReport fixedThrottleCfg none).2.period_seconds
      = fixedThrottleCfg.RateLimitPeriod ∧
    (healthReport fixedThrottleCfg none).2.rate_per_second
      = fdivInt fixedThrottleCfg.RateLimitRequests fixedThrottleCfg.RateLimitPeriod ∧
    (healthReport fixedThrottleCfg none).2.min_ms = fixedThrottleCfg.ThrottleMinMs ∧
    (healthReport fixedThrottleCfg none).2.max_ms = fixedThrottleCfg.ThrottleMaxMs ∧
    ((healthReport fixedThrottleCfg none).2.enabled = true ↔
      0 < fixedThrottleCfg.ThrottleMaxMs) ∧
    ((healthReport fixedThrottleCfg none).2.database.error ≠ none ↔
      (healthReport fixedThrottleCfg none).2.database.status = "disconnected") :=
  health_snapshot_fields fixedThrottleCfg none (fun e he => by cases he)

/-! ### Claim C2: a fresh bucket admits exactly one burst of `capacity` -/

/-- Unfolding equation: zero calls. -/
theorem runAcquires_zero (cap r now : ℚ) (st : LimiterState) :
    runAcquires cap r now 0 st = ([], st) := rfl

/-- Unfolding equation: one more call. -/
theorem runAcquires_succ (cap r now : ℚ) (n : Nat) (st : LimiterState) :
    runAcquires cap r now (n + 1) st
      = ((tryAcquire cap r now st).1
          :: (runAcquires cap r now n (tryAcquire cap r now st).2).1,
         (runAcquires cap r now n (tryAcquire cap r now st).2).2) := rfl

/-- `tryAcquire` on an explicit state. -/
theorem tryAcquire_mk (cap r now tok lst : ℚ) :
    tryAcquire cap r now ⟨tok, lst⟩
      = if 1 ≤ min cap (tok + (now - lst) * r)
        then (true, ⟨min cap (tok + (now - lst) * r) - 1, now⟩)
        else (false, ⟨tok, lst⟩) := rfl

/-- Helper for C2: from a state holding exactly `k` tokens with the
last-refill stamp at the current instant, an immediate burst of `k + 1`
calls admits the first `k` and rejects the last. -/
theorem runAcquires_exhaust (cap r t : ℚ) (hcap : 0 ≤ cap) :
    ∀ k : Nat, (k : ℚ) ≤ cap →
      runAcquires cap r t (k + 1) ⟨(k : ℚ), t⟩
        = (List.replicate k true ++ [false], ⟨(k : ℚ) - (k : ℚ), t⟩) := by
  intro k
  induction k with
  | zero =>
    intro _
    have hm : min cap (((0 : Nat) : ℚ) + (t - t) * r) = ((0 : Nat) : ℚ) := by
      rw [show ((0 : Nat) : ℚ) + (t - t) * r = ((0 : Nat) : ℚ) by push_cast; ring]
      refine min_eq_right ?_
      push_cast
      exact hcap
    rw [runAcquires_succ, tryAcquire_mk, hm,
      if_neg (by push_cast; norm_num)]
    dsimp only
    rw [runAcquires_zero]
    push_cast
    norm_num
  | succ k ih =>
    intro hk
    have hm : min cap (((k + 1 : Nat) : ℚ) + (t - t) * r) = ((k + 1 : Nat) : ℚ) := by
      rw [show ((k + 1 : Nat) : ℚ) + (t - t) * r = ((k + 1 : Nat) : ℚ) by ring]
      exact min_eq_right hk
    have hone : (1 : ℚ) ≤ ((k + 1 : Nat) : ℚ) := by
      push_cast
      linarith [Nat.cast_nonneg (α := ℚ) k]
    have hsub : ((k + 1 : Nat) : ℚ) - 1 = (k : ℚ) := by push_cast; ring
    have hk' : (k : ℚ) ≤ cap := by
      refine le_trans ?_ hk
      push_cast
      linarith
    rw [runAcquires_succ, tryAcquire_mk, hm, if_pos hone]
    dsimp only
    rw [hsub, ih hk']
    dsimp only
    have h2 : ((k + 1 : Nat) : ℚ) - ((k + 1 : Nat) : ℚ) = (k : ℚ) - (k : ℚ) := by
      push_cast
      ring
    rw [List.replicate_succ, h2]
    rfl

/-- Claim C2: a freshly constructed limiter with capacity `C` holds a full
bucket, so a burst of `C + 1` immediate `TryAcquire` calls (all at one
instant `t ≥ 0`, i.e. within one refill window, with any refill rate
`r ≥ 0`) admits exactly the first `C` and rejects the `(C+1)`-th. -/
theorem fresh_burst_admits_capacity (C : Nat) (r t : ℚ) (hr : 0 ≤ r) (ht : 0 ≤ t) :
    (runAcquires (C : ℚ) r t (C + 1) (mkLimiter (C : ℚ))).1
      = List.replicate C true ++ [false] := by
  have hmk : mkLimiter (C : ℚ) = ⟨(C : ℚ), 0⟩ := rfl
  have htr : (0 : ℚ) ≤ (t - 0) * r := by
    rw [sub_zero]
    exact mul_nonneg ht hr
  cases C with
  | zero =>
    have hm : min ((0 : Nat) : ℚ) (((0 : Nat) : ℚ) + (t - 0) * r) = ((0 : Nat) : ℚ) :=
      min_eq_left (le_add_of_nonneg_right htr)
    rw [hmk, runAcquires_succ, tryAcquire_mk, hm,
      if_neg (by push_cast; norm_num)]
    dsimp only
    rw [runAcquires_zero]
    rfl
  | succ k =>
    have hm : min (((k + 1 : Nat)) : ℚ) (((k + 1 : Nat) : ℚ) + (t - 0) * r)
        = ((k + 1 : Nat) : ℚ) :=
      min_eq_left (le_add_of_nonneg_right htr)
    have hone : (1 : ℚ) ≤ ((k + 1 : Nat) : ℚ) := by
      push_cast
      linarith [Nat.cast_nonneg (α := ℚ) k]
    have hsub : ((k + 1 : Nat) : ℚ) - 1 = (k : ℚ) := by push_cast; ring
    have hk' : (k : ℚ) ≤ ((k + 1 : Nat) : ℚ) := by push_cast; linarith
    have hcap : (0 : ℚ) ≤ ((k + 1 : Nat) : ℚ) := Nat.cast_nonneg _
    rw [hmk, runAcquires_succ, tryAcquire_mk, hm, if_pos hone]
    dsimp only
    rw [hsub, runAcquires_exhaust _ r t hcap k hk']
    dsimp only
    rw [List.replicate_succ]
    rfl

/-- Witness for C2 at capacity 2, rate 1 token/s, instant 0: the burst
decisions are `[true, true, false]`. -/
theorem fresh_burst_admits_capacity_witness :
    (runAcquires ((2 : Nat) : ℚ) 1 0 (2 + 1) (mkLimiter ((2 : Nat) : ℚ))).1
      = List.replicate 2 true ++ [false] :=
  fresh_burst_admits_capacity 2 1 0 (by norm_num) (by norm_num)

/-! ### Claim C1: delay first, then the admission check -/

/-- Claim C1: every completed run of the pipeline sleeps for the full
computed throttle delay strictly before the rate-limit admission check
(the sleep event precedes the `tryAcq` event in the trace), for admitted
and rejected requests alike; in particular a rejected request's trace is
exactly the sleep (when throttling is enabled) followed by the rejection —
delay-then-reject, never reject-without-delay. -/
theorem pipeline_delay_before_admission (next : Handler) (cfg : Config)
    (ctx : ReqCtx) (st : LimiterState) (evs : List Event) (resp : Response)
    (st' : LimiterState)
    (hrun : combinedMiddleware next cfg ctx st = some (evs, resp, st')) :
    ∃ d, goThrottleDelay cfg.ThrottleMinMs cfg.ThrottleMaxMs ctx.nano = some d ∧
      ∃ rest, evs
        = (if cfg.ThrottleMaxMs > 0 then [Event.sleep d] else [])
          ++ Event.tryAcq (tryAcquire (limiterCap cfg) (limiterRate cfg) ctx.now st).1
          :: rest ∧
        ((tryAcquire (limiterCap cfg) (limiterRate cfg) ctx.now st).1 = false →
          rest = [] ∧ resp.status = 429) := by
  simp only [combinedMiddleware, loggingMiddleware, throttleMiddleware,
    rateLimitMiddleware] at hrun
  by_cases hmax : cfg.ThrottleMaxMs > 0
  · rw [if_pos hmax] at hrun
    cases hj : goJitterDelay cfg.ThrottleMinMs cfg.ThrottleMaxMs ctx.nano with
    | none =>
      rw [hj] at hrun
      cases hrun
    | some d =>
      rw [hj] at hrun
      refine ⟨d, by simp [goThrottleDelay, hmax, hj], ?_⟩
      by_cases hacq : (tryAcquire (limiterCap cfg) (limiterRate cfg) ctx.now st).1 = true
      · rw [if_pos hacq] at hrun
        cases hnext : next cfg ctx
            (tryAcquire (limiterCap cfg) (limiterRate cfg) ctx.now st).2 with
        | none =>
          rw [hnext] at hrun
          cases hrun
        | some out =>
          rw [hnext] at hrun
          simp only [Option.map_some', Option.some.injEq, Prod.mk.injEq] at hrun
          obtain ⟨rfl, rfl, rfl⟩ := hrun
          refine ⟨out.1, ?_, fun hf => absurd hacq (by simp [hf])⟩
          simp [hacq, hmax]
      · rw [if_neg hacq] at hrun
        simp only [Option.map_some', Option.some.injEq, Prod.mk.injEq] at hrun
        obtain ⟨rfl, rfl, rfl⟩ := hrun
        have hfalse : (tryAcquire (limiterCap cfg) (limiterRate cfg) ctx.now st).1
            = false := by
          revert hacq
          cases (tryAcquire (limiterCap cfg) (limiterRate cfg) ctx.now st).1 <;> simp
        refine ⟨[], ?_, fun _ => ⟨rfl, ?_⟩⟩
        · simp [hfalse, hmax]
        · rfl
  · rw [if_neg hmax] at hrun
    refine ⟨0, by simp [goThrottleDelay, hmax], ?_⟩
    by_cases hacq : (tryAcquire (limiterCap cfg) (limiterRate cfg) ctx.now st).1 = true
    · rw [if_pos hacq] at hrun
      cases hnext : next cfg ctx
          (tryAcquire (limiterCap cfg) (limiterRate cfg) ctx.now st).2 with
      | none =>
        rw [hnext] at hrun
        cases hrun
      | some out =>
        rw [hnext] at hrun
        simp only [Option.map_some', Option.some.injEq, Prod.mk.injEq] at hrun
        obtain ⟨rfl, -⟩ := hrun
        refine ⟨out.1, ?_, fun hf => absurd hacq (by simp [hf])⟩
        simp [hacq, hmax]
    · rw [if_neg hacq] at hrun
      simp only [Option.some.injEq, Prod.mk.injEq] at hrun
      obtain ⟨rfl, rfl, rfl⟩ := hrun
      have hfalse : (tryAcquire (limiterCap cfg) (limiterRate cfg) ctx.now st).1
          = false := by
        revert hacq
        cases (tryAcquire (limiterCap cfg) (limiterRate cfg) ctx.now st).1 <;> simp
      refine ⟨[], ?_, fun _ => ⟨rfl, ?_⟩⟩
      · simp [hfalse, hmax]
      · rfl

/-- Witness for C1: a full run at the literal 10-per-second,
fixed-200 ms-throttle configuration from a full bucket: the trace is the
200 ms sleep, then the admission, then the handler. -/
theorem pipeline_delay_before_admission_witness :
    ∃ d, goThrottleDelay pipeCfg.ThrottleMinMs pipeCfg.ThrottleMaxMs ctx0.nano
        = some d ∧
      ∃ rest, ([Event.sleep 200, Event.tryAcq true, Event.handlerRun] : List Event)
        = (if pipeCfg.ThrottleMaxMs > 0 then [Event.sleep d] else [])
          ++ Event.tryAcq
              (tryAcquire (limiterCap pipeCfg) (limiterRate pipeCfg) ctx0.now ⟨10, 0⟩).1
          :: rest ∧
        ((tryAcquire (limiterCap pipeCfg) (limiterRate pipeCfg) ctx0.now ⟨10, 0⟩).1
            = false →
          rest = [] ∧
          (⟨200, some "application/json", none⟩ : Response).status = 429) :=
  pipeline_delay_before_admission okHandler pipeCfg ctx0 ⟨10, 0⟩
    [Event.sleep 200, Event.tryAcq true, Event.handlerRun]
    ⟨200, some "application/json", none⟩ ⟨9, 0⟩
    (by norm_num [combinedMiddleware, loggingMiddleware, throttleMiddleware,
      rateLimitMiddleware, goJitterDelay, tryAcquire, limiterCap, limiterRate,
      pipeCfg, okHandler, ctx0, min_def])

/-! ### Claim C3: the rejection outcome -/

/-- Claim C3: whenever the admission check fails, the pipeline's response
is HTTP 429 with `Content-Type: application/json` and exactly the JSON
body `{"error": "Rate limit exceeded. Too many requests."}`, and the
downstream handler never runs (no `handlerRun` event in the trace). -/
theorem rejected_request_response (next : Handler) (cfg : Config) (ctx : ReqCtx)
    (st : LimiterState) (evs : List Event) (resp : Response) (st' : LimiterState)
    (hrej : (tryAcquire (limiterCap cfg) (limiterRate cfg) ctx.now st).1 = false)
    (hrun : combinedMiddleware next cfg ctx st = some (evs, resp, st')) :
    resp.status = 429 ∧
    resp.contentType = some "application/json" ∧
    resp.body = some (Body.jsonBody (Json.obj
      [("error", Json.str "Rate limit exceeded. Too many requests.")])) ∧
    Event.handlerRun ∉ evs := by
  simp only [combinedMiddleware, loggingMiddleware, throttleMiddleware,
    rateLimitMiddleware] at hrun
  by_cases hmax : cfg.ThrottleMaxMs > 0
  · rw [if_pos hmax] at hrun
    cases hj : goJitterDelay cfg.ThrottleMinMs cfg.ThrottleMaxMs ctx.nano with
    | none =>
      rw [hj] at hrun
      cases hrun
    | some d =>
      rw [hj, if_neg (by simp [hrej])] at hrun
      simp only [Option.map_some', Option.some.injEq, Prod.mk.injEq] at hrun
      obtain ⟨rfl, rfl, rfl⟩ := hrun
      exact ⟨rfl, rfl, rfl, by simp⟩
  · rw [if_neg hmax, if_neg (by simp [hrej])] at hrun
    simp only [Option.some.injEq, Prod.mk.injEq] at hrun
    obtain ⟨rfl, rfl, rfl⟩ := hrun
    exact ⟨rfl, rfl, rfl, by simp⟩

/-- Witness for C3 at the literal zero-capacity configuration: the first
request is rejected with the 429 JSON outcome and no handler run. -/
theorem rejected_request_response_witness :
    (⟨429, some "application/json", some (Body.jsonBody rejectBody)⟩
        : Response).status = 429 ∧
    (⟨429, some "application/json", some (Body.jsonBody rejectBody)⟩
        : Response).contentType = some "application/json" ∧
    (⟨429, some "application/json", some (Body.jsonBody rejectBody)⟩
        : Response).body = some (Body.jsonBody (Json.obj
      [("error", Json.str "Rate limit exceeded. Too many requests.")])) ∧
    Event.handlerRun ∉ ([Event.tryAcq false] : List Event) :=
  rejected_request_response okHandler rejectCfg ctx0 ⟨0, 0⟩
    [Event.tryAcq false]
    ⟨429, some "application/json", some (Body.jsonBody rejectBody)⟩ ⟨0, 0⟩
    (by norm_num [tryAcquire, limiterCap, limiterRate, rejectCfg, ctx0, min_def])
    (by norm_num [combinedMiddleware, loggingMiddleware, throttleMiddleware,
      rateLimitMiddleware, tryAcquire, limiterCap, limiterRate, rejectCfg,
      okHandler, ctx0, min_def])

/-! ### Claim C8: the health route bypasses the pipeline -/

/-- Claim C8: `/health` is registered directly on the health handler (not
wrapped in `combinedMiddleware`), and a health request never sleeps, never
consults the limiter, and leaves the limiter state unchanged. -/
theorem health_bypasses_pipeline (getH postH dbH : Handler) (cfg : Config)
    (ctx : ReqCtx) (st : LimiterState) (evs : List Event) (resp : Response)
    (st' : LimiterState)
    (hrun : healthHandler cfg ctx st = some (evs, resp, st')) :
    List.lookup "/health" (routeTable getH postH dbH) = some healthHandler ∧
    st' = st ∧
    ∀ e ∈ evs, (∀ d, e ≠ Event.sleep d) ∧ (∀ b, e ≠ Event.tryAcq b) := by
  simp only [healthHandler, Option.some.injEq, Prod.mk.injEq] at hrun
  obtain ⟨rfl, rfl, rfl⟩ := hrun
  refine ⟨by simp [routeTable], rfl, ?_⟩
  intro e he
  simp only [List.mem_singleton] at he
  subst he
  exact ⟨fun d => by simp, fun b => by simp⟩

/-- Witness for C8: a health request at the default configuration with a
full 10-token limiter. -/
theorem health_bypasses_pipeline_witness :
    List.lookup "/health" (routeTable okHandler okHandler okHandler)
      = some healthHandler ∧
    (⟨10, 0⟩ : LimiterState) = ⟨10, 0⟩ ∧
    ∀ e ∈ ([Event.dbPing true] : List Event),
      (∀ d, e ≠ Event.sleep d) ∧ (∀ b, e ≠ Event.tryAcq b) :=
  health_bypasses_pipeline okHandler okHandler okHandler defaultCfg ctx0 ⟨10, 0⟩
    [Event.dbPing true]
    ⟨(healthReport defaultCfg none).1, some "application/json",
      some (Body.healthBody (healthReport defaultCfg none).2)⟩
    ⟨10, 0⟩ rfl

end ApiThrottling
